import Mathlib

/-!
Verification of the baton-bitbucket connector core against its specification.

The Go sources are shallowly embedded: pure helpers become Lean functions,
the HTTP client becomes an explicit environment of calls, and functions that
issue upstream calls additionally return the trace of calls they made.
Strings are Go strings (Lean `String`), errors are either message strings
(connector layer) or structured gRPC-style status values (client layer).
-/

deriving instance DecidableEq for Except

namespace Bitbucket

/-! ## Go string primitives

`strings.Split(s, ":")` with a single-character separator, modelled on the
character list of the string. As in Go, splitting the empty string yields
one empty segment, and the result always has exactly `n+1` segments where
`n` is the number of separator occurrences. -/

def splitChars (sep : Char) : List Char → List (List Char)
  | [] => [[]]
  | c :: cs =>
    match splitChars sep cs with
    | [] => [[]]
    | p :: ps => if c = sep then [] :: p :: ps else (c :: p) :: ps

/-- Go `strings.Split(s, String(sep))`. -/
def goSplit (sep : Char) (s : String) : List String :=
  (splitChars sep s.data).map List.asString

/-- Go `strings.Join(parts, String(sep))`. -/
def goJoin (sep : Char) : List String → String
  | [] => ""
  | [s] => s
  | s :: rest => s ++ ⟨[sep]⟩ ++ goJoin sep rest

theorem splitChars_ne_nil (sep : Char) (cs : List Char) : splitChars sep cs ≠ [] := by
  cases cs with
  | nil => simp [splitChars]
  | cons c cs =>
    simp only [splitChars]
    cases h : splitChars sep cs with
    | nil => simp
    | cons p ps =>
      by_cases hc : c = sep <;> simp [hc]

theorem splitChars_no_sep (sep : Char) (xs : List Char) (h : sep ∉ xs) :
    splitChars sep xs = [xs] := by
  induction xs with
  | nil => rfl
  | cons c cs ih =>
    simp only [List.mem_cons] at h
    push_neg at h
    rw [splitChars, ih h.2]
    simp [Ne.symm h.1]

theorem splitChars_append_sep (sep : Char) (xs ys : List Char) (h : sep ∉ xs) :
    splitChars sep (xs ++ sep :: ys) = xs :: splitChars sep ys := by
  induction xs with
  | nil =>
    simp only [List.nil_append, splitChars]
    cases hy : splitChars sep ys with
    | nil => exact absurd hy (splitChars_ne_nil sep ys)
    | cons p ps => simp
  | cons c cs ih =>
    simp only [List.mem_cons] at h
    push_neg at h
    rw [List.cons_append, splitChars, ih h.2]
    simp [Ne.symm h.1]

/-- `s` does not contain the character `c` (legal-id side condition). -/
def charFree (c : Char) (s : String) : Prop := c ∉ s.data

instance (c : Char) (s : String) : Decidable (charFree c s) := by
  unfold charFree; infer_instance

theorem goSplit_compose3 (w p k : String)
    (hw : charFree ':' w) (hp : charFree ':' p) (hk : charFree ':' k) :
    goSplit ':' (w ++ ":" ++ p ++ ":" ++ k) = [w, p, k] := by
  have hdata : (w ++ ":" ++ p ++ ":" ++ k).data
      = w.data ++ ':' :: (p.data ++ ':' :: k.data) := by
    simp [String.data_append]
  rw [goSplit, hdata, splitChars_append_sep ':' _ _ hw,
    splitChars_append_sep ':' _ _ hp, splitChars_no_sep ':' _ hk]
  rfl

/-! ## Composite resource identifiers (src/pkg/connector) -/

/-- `ComposeProjectId` of project.go: `fmt.Sprintf("%s:%s:%s", workspaceId, projectId, key)`. -/
def ComposeProjectId (workspaceId projectId key : String) : String :=
  workspaceId ++ ":" ++ projectId ++ ":" ++ key

/-- `DecomposeProjectId` of project.go: split on ":", demand exactly 3 parts. -/
def DecomposeProjectId (id : String) : Except String (String × String × String) :=
  match goSplit ':' id with
  | [a, b, c] => .ok (a, b, c)
  | _ => .error "bitbucket-connector: invalid project resource id"

/-- `ComposeRepositoryId` of repository.go. -/
def ComposeRepositoryId (projectId repositoryId : String) : String :=
  projectId ++ ":" ++ repositoryId

/-- `DecomposeRepositoryId` of repository.go: at least 3 parts, and the
leading parts re-joined must form a valid composite project id. -/
def DecomposeRepositoryId (repositoryId : String) : Except String (String × String) :=
  let parts := goSplit ':' repositoryId
  if parts.length < 3 then
    .error "bitbucket-connector: invalid repository resource id"
  else
    let projectId := goJoin ':' (parts.take (parts.length - 1))
    match DecomposeProjectId projectId with
    | .error _ =>
        .error "bitbucket-connector: invalid repository resource id, composed project id is invalid"
    | .ok _ => .ok (projectId, parts.getLast!)

/-- `ComposedGroupId` of user-group.go. -/
def ComposedGroupId (workspaceId groupSlug : String) : String :=
  workspaceId ++ ":" ++ groupSlug

/-- `DecomposeGroupId` of user-group.go: split on ":", demand exactly 2 parts. -/
def DecomposeGroupId (id : String) : Except String (String × String) :=
  match goSplit ':' id with
  | [a, b] => .ok (a, b)
  | _ => .error "bitbucket-connector: invalid user group resource id"

end Bitbucket

namespace Bitbucket

/-! ### Helper characterizations of the decomposers -/

theorem decomposeProjectId_error_iff (id : String) :
    (∃ e, DecomposeProjectId id = .error e) ↔ (goSplit ':' id).length ≠ 3 := by
  unfold DecomposeProjectId
  match h : goSplit ':' id with
  | [] => simp
  | [a] => simp
  | [a, b] => simp
  | [a, b, c] => simp
  | a :: b :: c :: d :: rest => simp

theorem decomposeGroupId_error_iff (id : String) :
    (∃ e, DecomposeGroupId id = .error e) ↔ (goSplit ':' id).length ≠ 2 := by
  unfold DecomposeGroupId
  match h : goSplit ':' id with
  | [] => simp
  | [a] => simp
  | [a, b] => simp
  | a :: b :: c :: rest => simp

theorem decomposeRepositoryId_error_iff (id : String) :
    (∃ e, DecomposeRepositoryId id = .error e) ↔
      ((goSplit ':' id).length < 3 ∨
        ∃ e, DecomposeProjectId
          (goJoin ':' ((goSplit ':' id).take ((goSplit ':' id).length - 1))) = .error e) := by
  unfold DecomposeRepositoryId
  by_cases hlen : (goSplit ':' id).length < 3
  · simp [hlen]
  · simp only [hlen, if_false, false_or]
    match h : DecomposeProjectId
        (goJoin ':' ((goSplit ':' id).take ((goSplit ':' id).length - 1))) with
    | .error e => simp
    | .ok v => simp

/-- **C1** (counterexample). The claim quantifies over every input triple, but
when a component itself contains the separator the decomposition of the
composed id fails instead of returning the triple: composing workspace id
`"a:b"` with project id `"c"` and key `"d"` yields `"a:b:c:d"`, which
decomposes to an error, not to `("a:b", "c", "d")`. -/
theorem composeProjectId_not_left_invertible_on_colon_ids :
    DecomposeProjectId (ComposeProjectId "a:b" "c" "d")
        = .error "bitbucket-connector: invalid project resource id"
      ∧ DecomposeProjectId (ComposeProjectId "a:b" "c" "d") ≠ .ok ("a:b", "c", "d") := by
  constructor
  · rfl
  · decide

/-- **C1** (amended). For every triple of colon-free components — the spec's
own side condition, as upstream ids are UUIDs or slugs that never contain the
separator — `DecomposeProjectId` is a left inverse of `ComposeProjectId`:
decomposition returns exactly the original triple with no error. -/
theorem decomposeProjectId_composeProjectId (w p k : String)
    (hw : charFree ':' w) (hp : charFree ':' p) (hk : charFree ':' k) :
    DecomposeProjectId (ComposeProjectId w p k) = .ok (w, p, k) := by
  unfold DecomposeProjectId ComposeProjectId
  rw [goSplit_compose3 w p k hw hp hk]

/-- **C1** (witness). The amended round-trip theorem applied at the concrete
triple `("w1", "p1", "key")`. -/
theorem decomposeProjectId_composeProjectId_witness :
    DecomposeProjectId (ComposeProjectId "w1" "p1" "key") = .ok ("w1", "p1", "key") :=
  decomposeProjectId_composeProjectId "w1" "p1" "key"
    (by decide) (by decide) (by decide)

/-- **C8.** Each decomposer rejects exactly the strings with the wrong
colon-separated segment count — not 3 segments for `DecomposeProjectId`, not 2
for `DecomposeGroupId`, and for `DecomposeRepositoryId` fewer than 3 segments
or an invalid embedded composite project id — returning an error (so no
partial or truncated segments are ever produced for such inputs). -/
theorem decomposers_reject_wrong_segment_count :
    (∀ id : String,
      (∃ e, DecomposeProjectId id = .error e) ↔ (goSplit ':' id).length ≠ 3)
    ∧ (∀ id : String,
      (∃ e, DecomposeGroupId id = .error e) ↔ (goSplit ':' id).length ≠ 2)
    ∧ (∀ id : String,
      (∃ e, DecomposeRepositoryId id = .error e) ↔
        ((goSplit ':' id).length < 3 ∨
          ∃ e, DecomposeProjectId
            (goJoin ':' ((goSplit ':' id).take ((goSplit ':' id).length - 1)))
              = .error e)) :=
  ⟨decomposeProjectId_error_iff, decomposeGroupId_error_iff, decomposeRepositoryId_error_iff⟩

/-! ## gRPC-style errors (src/pkg/bitbucket/error.go)

A Go `error` as seen by `status.FromError`: either a status error carrying a
gRPC code, or a plain error (for which `FromError` reports `ok = false` and a
status with code `Unknown`). `msg` is the text returned by `err.Error()`. -/

inductive Code
  | ok
  | unknown
  | invalidArgument
  | notFound
  | permissionDenied
  | unauthenticated
  | internal
deriving DecidableEq, Repr

structure GoError where
  isStatus : Bool
  code : Code
  msg : String
deriving DecidableEq, Repr

/-- Go `strings.Contains(s, sub)`. -/
def goContains (s sub : String) : Bool := decide (sub.data <:+: s.data)

/-- `isPermissionDeniedErr` of error.go. `status.FromError` yields
`(status, true)` for a status error and `(Unknown-status, false)` otherwise,
so `ok && e.Code() == PermissionDenied` reads the stored code only when the
error is a status error, and for a non-status error `e.Code()` is `Unknown`. -/
def isPermissionDeniedErr (err : GoError) : Bool :=
  if err.isStatus = true ∧ err.code = Code.permissionDenied then
    true
  else if (err.isStatus = false ∨ err.code = Code.unknown)
      ∧ goContains err.msg "status 403" = true then
    true
  else
    false

/-- **C9.** An error is classified `PermissionDenied` exactly when it is a
status error with code `PermissionDenied`, or it is a non-status error or has
status code `Unknown` and its message contains the substring `"status 403"`. -/
theorem isPermissionDeniedErr_iff (e : GoError) :
    isPermissionDeniedErr e = true ↔
      ((e.isStatus = true ∧ e.code = Code.permissionDenied) ∨
        ((e.isStatus = false ∨ e.code = Code.unknown)
          ∧ goContains e.msg "status 403" = true)) := by
  unfold isPermissionDeniedErr
  split_ifs with h1 h2 <;> simp_all

/-! ## Upstream data model (src/pkg/bitbucket/models.go) -/

structure User where
  id : String
  type : String
  name : String
  username : String
deriving DecidableEq, Repr

structure UserGroup where
  name : String
  slug : String
  permission : String
  members : List User
deriving DecidableEq, Repr

structure Workspace where
  id : String
  slug : String
  name : String
deriving DecidableEq, Repr

structure Project where
  id : String
  key : String
  name : String
  description : String
deriving DecidableEq, Repr

structure Repository where
  id : String
  slug : String
  name : String
  fullName : String
  description : String
deriving DecidableEq, Repr

structure Permission where
  slug : String
  name : String
  value : String
deriving DecidableEq, Repr

/-- `GroupPermission` embeds `Permission` (promoted fields) plus the group. -/
structure GroupPermission where
  permission : Permission
  group : UserGroup
deriving DecidableEq, Repr

structure UserPermission where
  permission : Permission
  user : User
deriving DecidableEq, Repr

/-! ## Connector constants and helpers (src/pkg/connector) -/

def resourceTypeWorkspaceId : String := "workspace"
def resourceTypeProjectId : String := "project"
def resourceTypeUserGroupId : String := "user_group"
def resourceTypeUserId : String := "user"
def resourceTypeRepositoryId : String := "repository"

def repoEntitlement : String := "repository"
def roleRead : String := "read"
def roleWrite : String := "write"
def roleCreate : String := "create-repo"
def roleAdmin : String := "admin"
def roleNone : String := "none"

/-- `projectPermissions` of project.go. -/
def projectPermissions : List String := [roleRead, roleWrite, roleCreate, roleAdmin]

/-- `repositoryRoles` of repository.go. -/
def repositoryRoles : List String := [roleRead, roleWrite, roleAdmin]

/-- `contains` of the connector helpers: a linear scan for an exact match. -/
def contains (payload : String) : List String → Bool
  | [] => false
  | v :: vs => if payload = v then true else contains payload vs

/-- `isUserPresent` of the connector helpers. -/
def isUserPresent (users : List User) (targetUserId : String) : Bool :=
  match users with
  | [] => false
  | u :: us => if u.id = targetUserId then true else isUserPresent us targetUserId

/-- A `v2.ResourceId`. -/
structure ResourceId where
  resourceType : String
  resource : String
deriving DecidableEq, Repr

/-- A materialized grant as produced by `grant.NewGrant(resource, slug, principalId)`. -/
structure Grant where
  resource : ResourceId
  entitlement : String
  principal : ResourceId
deriving DecidableEq, Repr

/-! ## Permission-record loops of the Grants walks (C7)

Each loop mirrors the corresponding `for ... { if !contains(...) { continue } ...
rv = append(rv, grant.NewGrant(...)) }` body of project.go / repository.go.
The grant principal ids reproduce `userGroupResource` (composite
`workspaceId:groupSlug`) and `userResource` (the bare user id). -/

def projectGroupPermissionGrants (resource : ResourceId) (workspaceId : String) :
    List GroupPermission → List Grant
  | [] => []
  | p :: ps =>
    if contains p.permission.value projectPermissions then
      { resource := resource, entitlement := (p.permission.value),
        principal := ⟨resourceTypeUserGroupId, ComposedGroupId workspaceId p.group.slug⟩ }
        :: projectGroupPermissionGrants resource workspaceId ps
    else
      projectGroupPermissionGrants resource workspaceId ps

def projectUserPermissionGrants (resource : ResourceId) (workspaceId : String) :
    List UserPermission → List Grant
  | [] => []
  | p :: ps =>
    if contains p.permission.value projectPermissions then
      { resource := resource, entitlement := (p.permission.value),
        principal := ⟨resourceTypeUserId, p.user.id⟩ }
        :: projectUserPermissionGrants resource workspaceId ps
    else
      projectUserPermissionGrants resource workspaceId ps

def repoGroupPermissionGrants (resource : ResourceId) (workspaceId : String) :
    List GroupPermission → List Grant
  | [] => []
  | p :: ps =>
    if contains p.permission.value repositoryRoles then
      { resource := resource, entitlement := (p.permission.value),
        principal := ⟨resourceTypeUserGroupId, ComposedGroupId workspaceId p.group.slug⟩ }
        :: repoGroupPermissionGrants resource workspaceId ps
    else
      repoGroupPermissionGrants resource workspaceId ps

def repoUserPermissionGrants (resource : ResourceId) (workspaceId : String) :
    List UserPermission → List Grant
  | [] => []
  | p :: ps =>
    if contains p.permission.value repositoryRoles then
      { resource := resource, entitlement := (p.permission.value),
        principal := ⟨resourceTypeUserId, p.user.id⟩ }
        :: repoUserPermissionGrants resource workspaceId ps
    else
      repoUserPermissionGrants resource workspaceId ps

/-- **C7.** Every permission-record loop of the Grants walks keeps exactly the
records whose permission value lies in the fixed role vocabulary of its
resource type (`projectPermissions` for projects, `repositoryRoles` for
repositories), emitting one grant `(resource, roleString, principal)` per
surviving record, and silently drops every record with an out-of-vocabulary
value (such as `"none"`) without erroring: each loop equals the
filter-then-map of its input page. -/
theorem permissionGrants_filter_map (resource : ResourceId) (workspaceId : String)
    (gps : List GroupPermission) (ups : List UserPermission) :
    projectGroupPermissionGrants resource workspaceId gps
        = (gps.filter (fun p => contains p.permission.value projectPermissions)).map
            (fun p => Grant.mk resource (p.permission.value)
              ⟨resourceTypeUserGroupId, ComposedGroupId workspaceId p.group.slug⟩)
      ∧ projectUserPermissionGrants resource workspaceId ups
        = (ups.filter (fun p => contains p.permission.value projectPermissions)).map
            (fun p => Grant.mk resource (p.permission.value)
              ⟨resourceTypeUserId, p.user.id⟩)
      ∧ repoGroupPermissionGrants resource workspaceId gps
        = (gps.filter (fun p => contains p.permission.value repositoryRoles)).map
            (fun p => Grant.mk resource (p.permission.value)
              ⟨resourceTypeUserGroupId, ComposedGroupId workspaceId p.group.slug⟩)
      ∧ repoUserPermissionGrants resource workspaceId ups
        = (ups.filter (fun p => contains p.permission.value repositoryRoles)).map
            (fun p => Grant.mk resource (p.permission.value)
              ⟨resourceTypeUserId, p.user.id⟩) := by
  refine ⟨?_, ?_, ?_, ?_⟩
  · induction gps with
    | nil => rfl
    | cons p ps ih =>
      by_cases h : contains p.permission.value projectPermissions
        <;> simp [projectGroupPermissionGrants, List.filter_cons, h, ih]
  · induction ups with
    | nil => rfl
    | cons p ps ih =>
      by_cases h : contains p.permission.value projectPermissions
        <;> simp [projectUserPermissionGrants, List.filter_cons, h, ih]
  · induction gps with
    | nil => rfl
    | cons p ps ih =>
      by_cases h : contains p.permission.value repositoryRoles
        <;> simp [repoGroupPermissionGrants, List.filter_cons, h, ih]
  · induction ups with
    | nil => rfl
    | cons p ps ih =>
      by_cases h : contains p.permission.value repositoryRoles
        <;> simp [repoUserPermissionGrants, List.filter_cons, h, ih]

/-! ## The page-token cursor

`pagination.PageState` of the baton-sdk: one frame of the cursor stack. -/

structure PageState where
  resourceTypeID : String
  resourceID : String
  token : String
deriving DecidableEq, Repr

/-- Modelled from the spec: the baton-sdk `pagination.Bag` (the PageTokenCodec
of §4.1) is not part of src/. Per the spec a decoded cursor is a stack of
`(resourceTypeId, upstream-cursor)` frames whose current frame is the top of
the stack (the most recently pushed frame); advancing with an empty upstream
cursor pops the exhausted frame, and an empty stack is the terminal state,
encoded as the empty token string. We represent a decoded token directly as
the stack, current frame first. -/
abbrev Bag := List PageState

def Bag.push (b : Bag) (s : PageState) : Bag := s :: b

def Bag.pop (b : Bag) : Bag := b.tail

/-- `Bag.ResourceTypeID()`: the current frame's resource type (empty when no frame). -/
def Bag.resourceTypeID (b : Bag) : String :=
  match b with
  | [] => ""
  | s :: _ => s.resourceTypeID

/-- `Bag.PageToken()`: the current frame's upstream cursor. -/
def Bag.pageToken (b : Bag) : String :=
  match b with
  | [] => ""
  | s :: _ => s.token

/-- `Bag.Next(pageToken)`: store the new upstream cursor in the current frame,
or pop the frame when the cursor is exhausted (empty). -/
def Bag.next (b : Bag) (pageToken : String) : Except String Bag :=
  match b with
  | [] => .error "pagination bag does not have a current state"
  | s :: rest =>
    if pageToken = "" then .ok rest
    else .ok ({ s with token := pageToken } :: rest)

/-- `parsePageToken` of the connector helpers: decode the incoming token and,
when it holds no frame, push an initial frame for the resource about to be
enumerated. The decoded form of the empty token is the empty stack. -/
def parsePageToken (b : Bag) (resourceID : ResourceId) : Bag :=
  if b.isEmpty then [⟨resourceID.resourceType, resourceID.resource, ""⟩] else b

/-- `ParseEntitlementID` of the connector helpers: split on ":", demand at
least 4 parts, re-join the middle parts as the resource id, last part is the
entitlement slug. -/
def ParseEntitlementID (id : String) : Except String (ResourceId × String) :=
  let parts := goSplit ':' id
  if parts.length < 4 then
    .error "bitbucket-connector: invalid resource id"
  else
    .ok (⟨parts.head!, goJoin ':' ((parts.drop 1).take (parts.length - 2))⟩,
      parts.getLast!)

/-! ## projectResourceType.Grants (src/pkg/connector/project.go, C2) -/

/-- The upstream listing calls the project Grants walk can issue.
Arguments of each function: workspace id, project id or key, page cursor. -/
structure ProjectGrantsEnv where
  getProjectRepos : String → String → String → Except String (List Repository × String)
  getProjectGroupPermissions :
    String → String → String → Except String (List GroupPermission × String)
  getProjectUserPermissions :
    String → String → String → Except String (List UserPermission × String)

/-- The repository-membership loop of the project Grants walk: one assignment
grant per repository, whose principal id composes the project's composite id
with the repository id (`repositoryResource` with the project as parent). -/
def projectRepoGrants (resource : ResourceId) : List Repository → List Grant
  | [] => []
  | repo :: rest =>
    Grant.mk resource repoEntitlement
        ⟨resourceTypeRepositoryId, ComposeRepositoryId resource.resource repo.id⟩
      :: projectRepoGrants resource rest

/-- `projectResourceType.Grants`: decode the token, decompose the composite
project id, then dispatch on the current frame's resource type: the initial
`project` frame is replaced by pushing `repository`, `user_group` and `user`
frames; each other frame runs one page of its listing and advances its own
upstream cursor. -/
def projectGrants (env : ProjectGrantsEnv) (resource : ResourceId) (token : Bag) :
    Except String (List Grant × Bag) :=
  let bag := parsePageToken token resource
  match DecomposeProjectId resource.resource with
  | .error e => .error e
  | .ok (workspaceId, projectId, projectKey) =>
    if bag.resourceTypeID = resourceTypeProjectId then
      .ok ([], ((bag.pop.push ⟨resourceTypeRepositoryId, "", ""⟩).push
          ⟨resourceTypeUserGroupId, "", ""⟩).push ⟨resourceTypeUserId, "", ""⟩)
    else if bag.resourceTypeID = resourceTypeRepositoryId then
      match env.getProjectRepos workspaceId projectId bag.pageToken with
      | .error e => .error ("bitbucket-connector: failed to list project repositories: " ++ e)
      | .ok (repos, nextToken) =>
        match bag.next nextToken with
        | .error e => .error e
        | .ok bag2 => .ok (projectRepoGrants resource repos, bag2)
    else if bag.resourceTypeID = resourceTypeUserGroupId then
      match env.getProjectGroupPermissions workspaceId projectKey bag.pageToken with
      | .error e =>
        .error ("bitbucket-connector: failed to list project group permissions: " ++ e)
      | .ok (permissions, nextToken) =>
        match bag.next nextToken with
        | .error e => .error e
        | .ok bag2 => .ok (projectGroupPermissionGrants resource workspaceId permissions, bag2)
    else if bag.resourceTypeID = resourceTypeUserId then
      match env.getProjectUserPermissions workspaceId projectKey bag.pageToken with
      | .error e =>
        .error ("bitbucket-connector: failed to list project user permissions: " ++ e)
      | .ok (permissions, nextToken) =>
        match bag.next nextToken with
        | .error e => .error e
        | .ok bag2 => .ok (projectUserPermissionGrants resource workspaceId permissions, bag2)
    else
      .error ("bitbucket-connector: invalid grant resource type: " ++ bag.resourceTypeID)

/-- Drive `projectGrants` like a consumer: call with the empty token, then
keep feeding back the returned token until it is empty, recording for each
call the phase (the decoded current frame's resource type) and the grants. -/
def projectGrantsTrace (env : ProjectGrantsEnv) (resource : ResourceId) :
    Nat → Bag → List (String × List Grant)
  | 0, _ => []
  | fuel + 1, token =>
    match projectGrants env resource token with
    | .error _ => []
    | .ok (gs, nextTok) =>
      ((parsePageToken token resource).resourceTypeID, gs) ::
        (if nextTok.isEmpty then []
         else projectGrantsTrace env resource fuel nextTok)

/-- A concrete single-page environment: one repository, one group permission
and one user permission, each listing exhausted after its first page. -/
def phaseEnv : ProjectGrantsEnv where
  getProjectRepos := fun _ _ _ => .ok ([⟨"r1", "r1", "R1", "w/R1", ""⟩], "")
  getProjectGroupPermissions := fun _ _ _ =>
    .ok ([⟨⟨"g1", "G1", "write"⟩, ⟨"G1", "g1", "", []⟩⟩], "")
  getProjectUserPermissions := fun _ _ _ =>
    .ok ([⟨⟨"u1", "U1", "read"⟩, ⟨"u1", "user", "U1", "u1"⟩⟩], "")

/-- The concrete project resource `w:p:k` used to drive the walk. -/
def phaseResource : ResourceId := ⟨resourceTypeProjectId, "w:p:k"⟩

/-- **C2** (counterexample). Driving the composite project Grants listing from
the empty page token over a concrete single-page environment, the phases
execute in the order UserPermissions, GroupPermissions, Repositories — the
reverse of the claimed Repositories, GroupPermissions, UserPermissions order:
the frames are pushed repository-first onto a stack, so the last-pushed
`user` frame is the current one when the walk resumes. -/
theorem projectGrants_phase_order_counterexample :
    (projectGrantsTrace phaseEnv phaseResource 10 []).map Prod.fst
        = [resourceTypeProjectId, resourceTypeUserId, resourceTypeUserGroupId,
            resourceTypeRepositoryId]
      ∧ (projectGrantsTrace phaseEnv phaseResource 10 []).map Prod.fst
        ≠ [resourceTypeProjectId, resourceTypeRepositoryId, resourceTypeUserGroupId,
            resourceTypeUserId] := by
  constructor
  · rfl
  · decide

/-- **C2** (amended). The composite project Grants listing is a linear state
machine in the order UserPermissions-phase, GroupPermissions-phase,
Repositories-phase, Done: starting from the empty token it replaces the
initial `project` frame by the stack `[user, user_group, repository]`; each
phase then runs against its own upstream cursor only, staying in the same
frame (so a caller resuming with the returned token lands back in the same
phase) while its upstream cursor is non-empty, and popping to the next
phase's frame exactly when its own cursor is exhausted; popping the last
frame yields the empty (terminal) token. -/
theorem projectGrants_linear_phases (r : ResourceId) (w pid key : String)
    (hr : r.resourceType = resourceTypeProjectId)
    (hd : DecomposeProjectId r.resource = .ok (w, pid, key)) :
    (∀ env : ProjectGrantsEnv,
      projectGrants env r []
        = .ok ([], [⟨resourceTypeUserId, "", ""⟩, ⟨resourceTypeUserGroupId, "", ""⟩,
            ⟨resourceTypeRepositoryId, "", ""⟩]))
    ∧ (∀ (env : ProjectGrantsEnv) (rid t : String) (rest : Bag)
        (perms : List UserPermission) (next : String),
        env.getProjectUserPermissions w key t = .ok (perms, next) →
        projectGrants env r (⟨resourceTypeUserId, rid, t⟩ :: rest)
          = .ok (projectUserPermissionGrants r w perms,
              if next = "" then rest else ⟨resourceTypeUserId, rid, next⟩ :: rest))
    ∧ (∀ (env : ProjectGrantsEnv) (rid t : String) (rest : Bag)
        (perms : List GroupPermission) (next : String),
        env.getProjectGroupPermissions w key t = .ok (perms, next) →
        projectGrants env r (⟨resourceTypeUserGroupId, rid, t⟩ :: rest)
          = .ok (projectGroupPermissionGrants r w perms,
              if next = "" then rest else ⟨resourceTypeUserGroupId, rid, next⟩ :: rest))
    ∧ (∀ (env : ProjectGrantsEnv) (rid t : String) (rest : Bag)
        (repos : List Repository) (next : String),
        env.getProjectRepos w pid t = .ok (repos, next) →
        projectGrants env r (⟨resourceTypeRepositoryId, rid, t⟩ :: rest)
          = .ok (projectRepoGrants r repos,
              if next = "" then rest else ⟨resourceTypeRepositoryId, rid, next⟩ :: rest)) := by
  refine ⟨?_, ?_, ?_, ?_⟩
  · intro env
    simp [projectGrants, parsePageToken, hd, hr, Bag.resourceTypeID, Bag.pop, Bag.push]
  · intro env rid t rest perms next henv
    simp only [projectGrants, parsePageToken, List.isEmpty_cons, if_neg Bool.false_ne_true,
      hd, Bag.resourceTypeID, Bag.pageToken, henv, Bag.next]
    by_cases hnext : next = "" <;>
      simp [hnext, resourceTypeUserId, resourceTypeProjectId, resourceTypeRepositoryId,
        resourceTypeUserGroupId]
  · intro env rid t rest perms next henv
    simp only [projectGrants, parsePageToken, List.isEmpty_cons, if_neg Bool.false_ne_true,
      hd, Bag.resourceTypeID, Bag.pageToken, henv, Bag.next]
    by_cases hnext : next = "" <;>
      simp [hnext, resourceTypeUserId, resourceTypeProjectId, resourceTypeRepositoryId,
        resourceTypeUserGroupId]
  · intro env rid t rest repos next henv
    simp only [projectGrants, parsePageToken, List.isEmpty_cons, if_neg Bool.false_ne_true,
      hd, Bag.resourceTypeID, Bag.pageToken, henv, Bag.next]
    by_cases hnext : next = "" <;>
      simp [hnext, resourceTypeUserId, resourceTypeProjectId, resourceTypeRepositoryId,
        resourceTypeUserGroupId]

/-- **C2** (witness). The amended phase theorem applied to the concrete
project `w:p:k` and the concrete single-page environment: the initial call
builds the `[user, user_group, repository]` stack, and the user phase with an
exhausted upstream cursor pops down to the `user_group` frame. -/
theorem projectGrants_linear_phases_witness :
    projectGrants phaseEnv phaseResource []
        = .ok ([], [⟨resourceTypeUserId, "", ""⟩, ⟨resourceTypeUserGroupId, "", ""⟩,
            ⟨resourceTypeRepositoryId, "", ""⟩])
      ∧ projectGrants phaseEnv phaseResource
          [⟨resourceTypeUserId, "", ""⟩, ⟨resourceTypeUserGroupId, "", ""⟩,
            ⟨resourceTypeRepositoryId, "", ""⟩]
        = .ok (projectUserPermissionGrants phaseResource "w"
            [⟨⟨"u1", "U1", "read"⟩, ⟨"u1", "user", "U1", "u1"⟩⟩],
          [⟨resourceTypeUserGroupId, "", ""⟩, ⟨resourceTypeRepositoryId, "", ""⟩]) := by
  have h := projectGrants_linear_phases phaseResource "w" "p" "k" rfl (by decide)
  refine ⟨h.1 phaseEnv, ?_⟩
  have h2 := h.2.1 phaseEnv "" ""
    [⟨resourceTypeUserGroupId, "", ""⟩, ⟨resourceTypeRepositoryId, "", ""⟩]
    [⟨⟨"u1", "U1", "read"⟩, ⟨"u1", "user", "U1", "u1"⟩⟩] "" rfl
  simpa using h2

/-! ## Grant / Revoke provisioning (C3, C6)

A `v2.Entitlement` as consumed by the provisioning entry points: its id
string (parsed by `ParseEntitlementID`) and its `Slug` field. -/

structure Entitlement where
  id : String
  slug : String
deriving DecidableEq, Repr

/-- An upstream mutating call (update/delete of a permission, add/remove of a
group member). Read-only lookups live in the environments instead. -/
inductive MutCall
  | updateProjectUserPermission (workspaceId projectKey userId slug : String)
  | updateProjectGroupPermission (workspaceId projectKey groupId slug : String)
  | deleteProjectUserPermission (workspaceId projectKey userId : String)
  | deleteProjectGroupPermission (workspaceId projectKey groupId : String)
  | updateRepoUserPermission (workspaceId repoId userId slug : String)
  | updateRepoGroupPermission (workspaceId repoId groupSlug slug : String)
  | deleteRepoUserPermission (workspaceId repoId userId : String)
  | deleteRepoGroupPermission (workspaceId repoId groupSlug : String)
  | addUserToGroup (workspaceId groupSlug userId : String)
  | removeUserFromGroup (workspaceId groupSlug userId : String)
deriving DecidableEq, Repr

/-- Outcome of a provisioning call: the returned error (if any), the upstream
mutating calls issued, and the warnings logged. -/
structure ProvResult where
  res : Except String Unit
  calls : List MutCall
  warns : List String
deriving DecidableEq, Repr

/-- Upstream responses available to the project Grant/Revoke flows. -/
structure ProjectProvEnv where
  getProjectUserPermission : String → String → String → Except String Permission
  getProjectGroupPermission : String → String → String → Except String Permission
  updateProjectUserPermission : String → String → String → String → Except String Unit
  updateProjectGroupPermission : String → String → String → String → Except String Unit
  deleteProjectUserPermission : String → String → String → Except String Unit
  deleteProjectGroupPermission : String → String → String → Except String Unit

/-- `projectResourceType.GetPermission`: one read call per principal type. -/
def projectGetPermission (env : ProjectProvEnv) (principal : ResourceId)
    (workspaceId projectKey : String) : Except String Permission :=
  if principal.resourceType = resourceTypeUserId then
    match env.getProjectUserPermission workspaceId projectKey principal.resource with
    | .error e => .error ("bitbucket-connector: failed to get project user permission: " ++ e)
    | .ok p => .ok p
  else if principal.resourceType = resourceTypeUserGroupId then
    match env.getProjectGroupPermission workspaceId projectKey principal.resource with
    | .error e => .error ("bitbucket-connector: failed to get project group permission: " ++ e)
    | .ok p => .ok p
  else
    .error ("bitbucket-connector: invalid principal resource type: " ++ principal.resourceType)

/-- `projectResourceType.Grant`: validate the principal type, parse the
entitlement, reject the repository assignment entitlement and roles outside
`projectPermissions` before any upstream call, then read the current
permission, warn when it is not `none`, and issue the update call. -/
def projectGrantOp (env : ProjectProvEnv) (principal : ResourceId)
    (entitlement : Entitlement) : ProvResult :=
  let principalIsUser := principal.resourceType = resourceTypeUserId
  let principalIsGroup := principal.resourceType = resourceTypeUserGroupId
  if ¬principalIsUser ∧ ¬principalIsGroup then
    { res := .error "bitbucket-connector: only users and groups can be granted project permissions",
      calls := [],
      warns := ["bitbucket-connector: only users and groups can be granted project permissions"] }
  else
    match ParseEntitlementID entitlement.id with
    | .error e => { res := .error e, calls := [], warns := [] }
    | .ok (projectResourceId, slug) =>
      match DecomposeProjectId projectResourceId.resource with
      | .error e => { res := .error e, calls := [], warns := [] }
      | .ok (workspaceId, _, projectKey) =>
        if slug = repoEntitlement then
          { res := .error "bitbucket-connector: granting repository memberships is not supported",
            calls := [],
            warns := ["bitbucket-connector: granting repository memberships is not supported"] }
        else if contains slug projectPermissions = false then
          { res := .error ("bitbucket-connector: unsupported project role: " ++ slug),
            calls := [], warns := [] }
        else
          match projectGetPermission env principal workspaceId projectKey with
          | .error e => { res := .error e, calls := [], warns := [] }
          | .ok permission =>
            let warns :=
              if permission.value ≠ roleNone then
                ["bitbucket-connector: principal already has a project permission"]
              else []
            if principalIsUser then
              match env.updateProjectUserPermission workspaceId projectKey
                  principal.resource slug with
              | .error e =>
                { res := .error
                    ("bitbucket-connector: failed to update project user permission: " ++ e),
                  calls := [.updateProjectUserPermission workspaceId projectKey
                    principal.resource slug],
                  warns := warns }
              | .ok _ =>
                { res := .ok (),
                  calls := [.updateProjectUserPermission workspaceId projectKey
                    principal.resource slug],
                  warns := warns }
            else
              match env.updateProjectGroupPermission workspaceId projectKey
                  principal.resource slug with
              | .error e =>
                { res := .error
                    ("bitbucket-connector: failed to update project group permission: " ++ e),
                  calls := [.updateProjectGroupPermission workspaceId projectKey
                    principal.resource slug],
                  warns := warns }
              | .ok _ =>
                { res := .ok (),
                  calls := [.updateProjectGroupPermission workspaceId projectKey
                    principal.resource slug],
                  warns := warns }

/-- `projectResourceType.Revoke`: same validation, but the current permission
is read before the role-vocabulary check; a current value of `none` only
logs a warning and the delete call is still issued. -/
def projectRevokeOp (env : ProjectProvEnv) (principal : ResourceId)
    (entitlement : Entitlement) : ProvResult :=
  let principalIsUser := principal.resourceType = resourceTypeUserId
  let principalIsGroup := principal.resourceType = resourceTypeUserGroupId
  if ¬principalIsUser ∧ ¬principalIsGroup then
    { res := .error "bitbucket-connector: only users and groups can have project permissions revoked",
      calls := [],
      warns := ["bitbucket-connector: only users and groups can have project permissions revoked"] }
  else
    match ParseEntitlementID entitlement.id with
    | .error e => { res := .error e, calls := [], warns := [] }
    | .ok (projectResourceId, slug) =>
      match DecomposeProjectId projectResourceId.resource with
      | .error e => { res := .error e, calls := [], warns := [] }
      | .ok (workspaceId, _, projectKey) =>
        if slug = repoEntitlement then
          { res := .error "bitbucket-connector: revoking repository memberships is not supported",
            calls := [],
            warns := ["bitbucket-connector: revoking repository memberships is not supported"] }
        else
          match projectGetPermission env principal workspaceId projectKey with
          | .error e => { res := .error e, calls := [], warns := [] }
          | .ok permission =>
            if contains slug projectPermissions = false then
              { res := .error ("bitbucket-connector: unsupported project role: "
                  ++ permission.value),
                calls := [], warns := [] }
            else
              let warns :=
                if permission.value = roleNone then
                  ["bitbucket-connector: principal already doesnt have this project permission"]
                else []
              if principalIsUser then
                match env.deleteProjectUserPermission workspaceId projectKey
                    principal.resource with
                | .error e =>
                  { res := .error
                      ("bitbucket-connector: failed to remove project user permission: " ++ e),
                    calls := [.deleteProjectUserPermission workspaceId projectKey
                      principal.resource],
                    warns := warns }
                | .ok _ =>
                  { res := .ok (),
                    calls := [.deleteProjectUserPermission workspaceId projectKey
                      principal.resource],
                    warns := warns }
              else
                match env.deleteProjectGroupPermission workspaceId projectKey
                    principal.resource with
                | .error e =>
                  { res := .error
                      ("bitbucket-connector: failed to remove project group permission: " ++ e),
                    calls := [.deleteProjectGroupPermission workspaceId projectKey
                      principal.resource],
                    warns := warns }
                | .ok _ =>
                  { res := .ok (),
                    calls := [.deleteProjectGroupPermission workspaceId projectKey
                      principal.resource],
                    warns := warns }

/-- Upstream responses available to the repository Grant flow. -/
structure RepoProvEnv where
  getRepoUserPermission : String → String → String → Except String Permission
  getRepoGroupPermission : String → String → String → Except String Permission
  updateRepoUserPermission : String → String → String → String → Except String Unit
  updateRepoGroupPermission : String → String → String → String → Except String Unit

/-- `repositoryResourceType.GetPermission`: for a group principal the
composite group id is decomposed to its slug before the lookup. -/
def repoGetPermission (env : RepoProvEnv) (principal : ResourceId)
    (workspaceId repoId : String) : Except String Permission :=
  if principal.resourceType = resourceTypeUserId then
    match env.getRepoUserPermission workspaceId repoId principal.resource with
    | .error e => .error ("bitbucket-connector: failed to get repository user permission: " ++ e)
    | .ok p => .ok p
  else if principal.resourceType = resourceTypeUserGroupId then
    match DecomposeGroupId principal.resource with
    | .error e => .error ("bitbucket-connector: failed to grant repository permission: " ++ e)
    | .ok (_, groupSlug) =>
      match env.getRepoGroupPermission workspaceId repoId groupSlug with
      | .error e =>
        .error ("bitbucket-connector: failed to get repository group permission: " ++ e)
      | .ok p => .ok p
  else
    .error ("bitbucket-connector: invalid principal resource type: " ++ principal.resourceType)

/-- `repositoryResourceType.Grant`: validate the principal type, parse the
entitlement and decompose the composite repository id, then read the current
permission *before* checking the role vocabulary; an out-of-vocabulary role
is rejected after that read, and the update call is issued otherwise. -/
def repoGrantOp (env : RepoProvEnv) (principal : ResourceId)
    (entitlement : Entitlement) : ProvResult :=
  let principalIsUser := principal.resourceType = resourceTypeUserId
  let principalIsGroup := principal.resourceType = resourceTypeUserGroupId
  if ¬principalIsUser ∧ ¬principalIsGroup then
    { res := .error "bitbucket-connector: only users and groups can be granted repository permissions",
      calls := [],
      warns := ["bitbucket-connector: only users and groups can be granted repository permissions"] }
  else
    match ParseEntitlementID entitlement.id with
    | .error e => { res := .error e, calls := [], warns := [] }
    | .ok (repositoryResourceId, slug) =>
      match DecomposeRepositoryId repositoryResourceId.resource with
      | .error e => { res := .error e, calls := [], warns := [] }
      | .ok (composedProjectId, repoId) =>
        match DecomposeProjectId composedProjectId with
        | .error e => { res := .error e, calls := [], warns := [] }
        | .ok (workspaceId, _, _) =>
          match repoGetPermission env principal workspaceId repoId with
          | .error e => { res := .error e, calls := [], warns := [] }
          | .ok permission =>
            if contains slug repositoryRoles = false then
              { res := .error ("bitbucket-connector: unsupported repository role: "
                  ++ entitlement.slug),
                calls := [], warns := [] }
            else
              let warns :=
                if permission.value ≠ roleNone then
                  ["bitbucket-connector: principal already has a repository permission"]
                else []
              if principalIsUser then
                match env.updateRepoUserPermission workspaceId repoId
                    principal.resource slug with
                | .error e =>
                  { res := .error
                      ("bitbucket-connector: failed to update repository user permission: " ++ e),
                    calls := [.updateRepoUserPermission workspaceId repoId
                      principal.resource slug],
                    warns := warns }
                | .ok _ =>
                  { res := .ok (),
                    calls := [.updateRepoUserPermission workspaceId repoId
                      principal.resource slug],
                    warns := warns }
              else
                match DecomposeGroupId principal.resource with
                | .error e =>
                  { res := .error
                      ("bitbucket-connector: failed to update repository permission: " ++ e),
                    calls := [], warns := warns }
                | .ok (_, groupSlug) =>
                  match env.updateRepoGroupPermission workspaceId repoId groupSlug slug with
                  | .error e =>
                    { res := .error
                        ("bitbucket-connector: failed to update repository group permission: "
                          ++ e),
                      calls := [.updateRepoGroupPermission workspaceId repoId groupSlug slug],
                      warns := warns }
                  | .ok _ =>
                    { res := .ok (),
                      calls := [.updateRepoGroupPermission workspaceId repoId groupSlug slug],
                      warns := warns }

/-- Upstream responses available to the user-group Grant/Revoke flows. -/
structure UserGroupProvEnv where
  getUserGroupMembers : String → String → Except String (List User)
  addUserToGroup : String → String → String → Except String Unit
  removeUserFromGroup : String → String → String → Except String Unit

/-- `userGroupResourceType.Revoke`: only user principals; the member list is
read first and a principal that is *not* currently a member makes the call
fail (after logging) without issuing the remove call. -/
def userGroupRevokeOp (env : UserGroupProvEnv) (principal : ResourceId)
    (entitlement : Entitlement) : ProvResult :=
  if principal.resourceType ≠ resourceTypeUserId then
    { res := .error "bitbucket-connector: only users can have group membership revoked",
      calls := [],
      warns := ["bitbucket-connector: only users can have group membership revoked"] }
  else
    match ParseEntitlementID entitlement.id with
    | .error e => { res := .error e, calls := [], warns := [] }
    | .ok (groupResourceId, _) =>
      match DecomposeGroupId groupResourceId.resource with
      | .error e => { res := .error e, calls := [], warns := [] }
      | .ok (workspaceId, groupSlug) =>
        let userId := principal.resource
        match env.getUserGroupMembers workspaceId groupSlug with
        | .error e =>
          { res := .error ("bitbucket-connector: failed to get user group members: " ++ e),
            calls := [], warns := [] }
        | .ok members =>
          if isUserPresent members userId = false then
            { res := .error "bitbucket-connector: user is not a member of the group",
              calls := [],
              warns := ["bitbucket-connector: user is not a member of the group"] }
          else
            match env.removeUserFromGroup workspaceId groupSlug userId with
            | .error e =>
              { res := .error
                  ("bitbucket-connector: failed to remove user from user group: " ++ e),
                calls := [.removeUserFromGroup workspaceId groupSlug userId],
                warns := [] }
            | .ok _ =>
              { res := .ok (),
                calls := [.removeUserFromGroup workspaceId groupSlug userId],
                warns := [] }

/-- A repository provisioning environment whose permission lookups fail. -/
def badLookupRepoEnv : RepoProvEnv where
  getRepoUserPermission := fun _ _ _ => .error "boom"
  getRepoGroupPermission := fun _ _ _ => .error "boom"
  updateRepoUserPermission := fun _ _ _ _ => .ok ()
  updateRepoGroupPermission := fun _ _ _ _ => .ok ()

/-- A project provisioning environment where every lookup reports the current
permission `none` and every mutation succeeds. -/
def stubProjectProvEnv : ProjectProvEnv where
  getProjectUserPermission := fun _ _ _ => .ok ⟨"", "", "none"⟩
  getProjectGroupPermission := fun _ _ _ => .ok ⟨"", "", "none"⟩
  updateProjectUserPermission := fun _ _ _ _ => .ok ()
  updateProjectGroupPermission := fun _ _ _ _ => .ok ()
  deleteProjectUserPermission := fun _ _ _ => .ok ()
  deleteProjectGroupPermission := fun _ _ _ => .ok ()

/-- A repository provisioning environment where every lookup reports the
current permission `none` and every mutation succeeds. -/
def stubRepoProvEnv : RepoProvEnv where
  getRepoUserPermission := fun _ _ _ => .ok ⟨"", "", "none"⟩
  getRepoGroupPermission := fun _ _ _ => .ok ⟨"", "", "none"⟩
  updateRepoUserPermission := fun _ _ _ _ => .ok ()
  updateRepoGroupPermission := fun _ _ _ _ => .ok ()

/-- **C3** (counterexample). A repository Grant with the out-of-vocabulary
role `owner` does not necessarily return the unsupported-role error: the
permission lookup is issued *before* the vocabulary check, so when that
lookup fails the call returns the lookup's error instead (though still no
mutating call). -/
theorem repoGrant_unsupported_role_wrong_error :
    ParseEntitlementID "repository:w:p:k:r1:owner"
        = .ok (⟨"repository", "w:p:k:r1"⟩, "owner")
      ∧ contains "owner" repositoryRoles = false
      ∧ repoGrantOp badLookupRepoEnv ⟨resourceTypeUserId, "u1"⟩
          ⟨"repository:w:p:k:r1:owner", "owner"⟩
        = ⟨.error "bitbucket-connector: failed to get repository user permission: boom", [], []⟩
      ∧ ("bitbucket-connector: failed to get repository user permission: boom" : String)
        ≠ "bitbucket-connector: unsupported repository role: owner" := by
  refine ⟨rfl, rfl, rfl, by decide⟩

/-- **C3** (amended). A Grant on a permission entitlement whose slug is
outside the resource type's fixed role vocabulary issues no upstream mutating
call, and returns the unsupported-role error — unconditionally for projects
(the check precedes any upstream call), and for repositories provided the
permission lookup that the code issues first succeeds (otherwise the lookup's
error is returned, still without any mutating call). -/
theorem grant_rejects_unsupported_role :
    (∀ (env : ProjectProvEnv) (principal : ResourceId) (ent : Entitlement)
        (rid : ResourceId) (slug w pid key : String),
      (principal.resourceType = resourceTypeUserId
        ∨ principal.resourceType = resourceTypeUserGroupId) →
      ParseEntitlementID ent.id = .ok (rid, slug) →
      DecomposeProjectId rid.resource = .ok (w, pid, key) →
      slug ≠ repoEntitlement →
      contains slug projectPermissions = false →
      projectGrantOp env principal ent
        = ⟨.error ("bitbucket-connector: unsupported project role: " ++ slug), [], []⟩)
    ∧ (∀ (env : RepoProvEnv) (principal : ResourceId) (ent : Entitlement)
        (rid : ResourceId) (slug composedProjectId repoId w pid key : String)
        (perm : Permission),
      (principal.resourceType = resourceTypeUserId
        ∨ principal.resourceType = resourceTypeUserGroupId) →
      ParseEntitlementID ent.id = .ok (rid, slug) →
      DecomposeRepositoryId rid.resource = .ok (composedProjectId, repoId) →
      DecomposeProjectId composedProjectId = .ok (w, pid, key) →
      repoGetPermission env principal w repoId = .ok perm →
      contains slug repositoryRoles = false →
      repoGrantOp env principal ent
        = ⟨.error ("bitbucket-connector: unsupported repository role: " ++ ent.slug), [], []⟩)
    ∧ (∀ (env : RepoProvEnv) (principal : ResourceId) (ent : Entitlement)
        (rid : ResourceId) (slug : String),
      ParseEntitlementID ent.id = .ok (rid, slug) →
      contains slug repositoryRoles = false →
      (repoGrantOp env principal ent).calls = []) := by
  refine ⟨?_, ?_, ?_⟩
  · intro env principal ent rid slug w pid key hp hparse hdec hrepo hvocab
    rcases hp with hp | hp <;>
      simp [projectGrantOp, hp, hparse, hdec, hrepo, hvocab, resourceTypeUserId,
        resourceTypeUserGroupId]
  · intro env principal ent rid slug composedProjectId repoId w pid key perm hp
      hparse hdecr hdecp hperm hvocab
    rcases hp with hp | hp <;>
      simp [repoGrantOp, hp, hparse, hdecr, hdecp, hperm, hvocab, resourceTypeUserId,
        resourceTypeUserGroupId]
  · intro env principal ent rid slug hparse hvocab
    by_cases hp : ¬(principal.resourceType = resourceTypeUserId)
        ∧ ¬(principal.resourceType = resourceTypeUserGroupId)
    · simp [repoGrantOp, hp]
    · simp only [repoGrantOp, if_neg hp, hparse]
      cases hdecr : DecomposeRepositoryId rid.resource with
      | error e => simp [hdecr]
      | ok pr =>
        obtain ⟨composedProjectId, repoId⟩ := pr
        cases hdecp : DecomposeProjectId composedProjectId with
        | error e => simp [hdecp]
        | ok wpk =>
          obtain ⟨w, pid, key⟩ := wpk
          cases hperm : repoGetPermission env principal w repoId with
          | error e => simp [hdecp, hperm]
          | ok perm => simp [hdecp, hperm, hvocab]

/-- **C3** (witness). The amended theorem applied concretely: a project Grant
of role `owner` and a repository Grant of role `owner` (with a successful
lookup) both return the unsupported-role error and issue no mutating call. -/
theorem grant_rejects_unsupported_role_witness :
    projectGrantOp stubProjectProvEnv ⟨resourceTypeUserId, "u1"⟩
        ⟨"project:w:p:k:owner", "owner"⟩
      = ⟨.error "bitbucket-connector: unsupported project role: owner", [], []⟩
    ∧ repoGrantOp stubRepoProvEnv ⟨resourceTypeUserId, "u1"⟩
        ⟨"repository:w:p:k:r1:owner", "owner"⟩
      = ⟨.error "bitbucket-connector: unsupported repository role: owner", [], []⟩ := by
  constructor
  · exact grant_rejects_unsupported_role.1 stubProjectProvEnv ⟨resourceTypeUserId, "u1"⟩
      ⟨"project:w:p:k:owner", "owner"⟩ ⟨"project", "w:p:k"⟩ "owner" "w" "p" "k"
      (Or.inl rfl) (by decide) (by decide) (by decide) (by decide)
  · exact grant_rejects_unsupported_role.2.1 stubRepoProvEnv ⟨resourceTypeUserId, "u1"⟩
      ⟨"repository:w:p:k:r1:owner", "owner"⟩ ⟨"repository", "w:p:k:r1"⟩ "owner"
      "w:p:k" "r1" "w" "p" "k" ⟨"", "", "none"⟩
      (Or.inl rfl) (by decide) (by decide) (by decide) (by decide) (by decide)

/-- A user-group provisioning environment whose groups currently have no
members (the state after a first successful revoke). -/
def emptyGroupEnv : UserGroupProvEnv where
  getUserGroupMembers := fun _ _ => .ok []
  addUserToGroup := fun _ _ _ => .ok ()
  removeUserFromGroup := fun _ _ _ => .ok ()

/-- **C6** (counterexample). Revoking a group-membership grant a second time
does not complete without error: with the member already absent, the
user-group Revoke logs and *returns* the "user is not a member of the group"
error, and the upstream remove call is not issued. -/
theorem userGroup_revoke_twice_errors :
    userGroupRevokeOp emptyGroupEnv ⟨resourceTypeUserId, "u1"⟩
        ⟨"user_group:w:dev:member", "member"⟩
      = ⟨.error "bitbucket-connector: user is not a member of the group", [],
          ["bitbucket-connector: user is not a member of the group"]⟩
    ∧ (userGroupRevokeOp emptyGroupEnv ⟨resourceTypeUserId, "u1"⟩
        ⟨"user_group:w:dev:member", "member"⟩).res ≠ .ok () := by
  refine ⟨rfl, by decide⟩

/-- **C6** (amended). Revoking an already-revoked grant behaves differently
per entitlement kind: for project *permission* entitlements, a current
permission value of `none` only logs the
"principal already doesnt have this project permission" warning, the upstream
delete call is still issued, and no error is returned (shown for user and
group principals); for *group-membership* entitlements, a principal that is
no longer a member makes Revoke return the
"user is not a member of the group" error without issuing the remove call. -/
theorem revoke_already_revoked_behavior :
    (∀ (env : ProjectProvEnv) (principal : ResourceId) (ent : Entitlement)
        (rid : ResourceId) (slug w pid key : String) (perm : Permission),
      principal.resourceType = resourceTypeUserId →
      ParseEntitlementID ent.id = .ok (rid, slug) →
      DecomposeProjectId rid.resource = .ok (w, pid, key) →
      slug ≠ repoEntitlement →
      contains slug projectPermissions = true →
      env.getProjectUserPermission w key principal.resource = .ok perm →
      perm.value = roleNone →
      env.deleteProjectUserPermission w key principal.resource = .ok () →
      projectRevokeOp env principal ent
        = ⟨.ok (), [.deleteProjectUserPermission w key principal.resource],
            ["bitbucket-connector: principal already doesnt have this project permission"]⟩)
    ∧ (∀ (env : ProjectProvEnv) (principal : ResourceId) (ent : Entitlement)
        (rid : ResourceId) (slug w pid key : String) (perm : Permission),
      principal.resourceType = resourceTypeUserGroupId →
      ParseEntitlementID ent.id = .ok (rid, slug) →
      DecomposeProjectId rid.resource = .ok (w, pid, key) →
      slug ≠ repoEntitlement →
      contains slug projectPermissions = true →
      env.getProjectGroupPermission w key principal.resource = .ok perm →
      perm.value = roleNone →
      env.deleteProjectGroupPermission w key principal.resource = .ok () →
      projectRevokeOp env principal ent
        = ⟨.ok (), [.deleteProjectGroupPermission w key principal.resource],
            ["bitbucket-connector: principal already doesnt have this project permission"]⟩)
    ∧ (∀ (env : UserGroupProvEnv) (principal : ResourceId) (ent : Entitlement)
        (rid : ResourceId) (slug w groupSlug : String) (members : List User),
      principal.resourceType = resourceTypeUserId →
      ParseEntitlementID ent.id = .ok (rid, slug) →
      DecomposeGroupId rid.resource = .ok (w, groupSlug) →
      env.getUserGroupMembers w groupSlug = .ok members →
      isUserPresent members principal.resource = false →
      userGroupRevokeOp env principal ent
        = ⟨.error "bitbucket-connector: user is not a member of the group", [],
            ["bitbucket-connector: user is not a member of the group"]⟩) := by
  refine ⟨?_, ?_, ?_⟩
  · intro env principal ent rid slug w pid key perm hu hparse hdec hrepo hvocab
      hlook hnone hdel
    simp [projectRevokeOp, projectGetPermission, hu, hparse, hdec, hrepo, hvocab,
      hlook, hnone, hdel, resourceTypeUserId, resourceTypeUserGroupId, roleNone]
  · intro env principal ent rid slug w pid key perm hg hparse hdec hrepo hvocab
      hlook hnone hdel
    simp [projectRevokeOp, projectGetPermission, hg, hparse, hdec, hrepo, hvocab,
      hlook, hnone, hdel, resourceTypeUserId, resourceTypeUserGroupId, roleNone]
  · intro env principal ent rid slug w groupSlug members hu hparse hdec hmem hpres
    simp [userGroupRevokeOp, hu, hparse, hdec, hmem, hpres, resourceTypeUserId]

/-- **C6** (witness). The amended theorem applied concretely: a project
Revoke of role `read` whose current value is already `none` warns, issues the
delete, and succeeds; a user-group Revoke of an absent member errors. -/
theorem revoke_already_revoked_behavior_witness :
    projectRevokeOp stubProjectProvEnv ⟨resourceTypeUserId, "u1"⟩
        ⟨"project:w:p:k:read", "read"⟩
      = ⟨.ok (), [.deleteProjectUserPermission "w" "k" "u1"],
          ["bitbucket-connector: principal already doesnt have this project permission"]⟩
    ∧ userGroupRevokeOp emptyGroupEnv ⟨resourceTypeUserId, "u2"⟩
        ⟨"user_group:w:dev:member", "member"⟩
      = ⟨.error "bitbucket-connector: user is not a member of the group", [],
          ["bitbucket-connector: user is not a member of the group"]⟩ := by
  constructor
  · exact revoke_already_revoked_behavior.1 stubProjectProvEnv
      ⟨resourceTypeUserId, "u1"⟩ ⟨"project:w:p:k:read", "read"⟩
      ⟨"project", "w:p:k"⟩ "read" "w" "p" "k" ⟨"", "", "none"⟩
      rfl (by decide) (by decide) (by decide) (by decide) rfl rfl rfl
  · exact revoke_already_revoked_behavior.2.2 emptyGroupEnv
      ⟨resourceTypeUserId, "u2"⟩ ⟨"user_group:w:dev:member", "member"⟩
      ⟨"user_group", "w:dev"⟩ "member" "w" "dev" []
      rfl (by decide) (by decide) rfl rfl

/-! ## Workspace scope resolution (src/pkg/bitbucket/pagination.go, C4 and C5) -/

/-- One read probe issued by `checkPermissions`, with the page-size limit it
passes upstream (`none` when the endpoint is called without pagination
variables, as `GetWorkspaceUserGroups` is). -/
inductive ProbeCall
  | groups (workspaceId : String) (limit : Option Nat)
  | members (workspaceId : String) (limit : Option Nat)
  | projects (workspaceId : String) (limit : Option Nat)
deriving DecidableEq, Repr

def ProbeCall.limit : ProbeCall → Option Nat
  | .groups _ l => l
  | .members _ l => l
  | .projects _ l => l

/-- Upstream responses available to scope resolution. -/
structure ScopeEnv where
  getAllWorkspaces : Except GoError (List Workspace)
  getWorkspaceUserGroups : String → Except GoError (List UserGroup)
  getWorkspaceMembers : String → Except GoError (List User)
  getWorkspaceProjects : String → Except GoError (List Project)

/-- Outcome of `checkPermissions`: the `(bool, error)` pair, the probes
issued, and the objects logged as missing permissions. -/
structure CheckResult where
  res : Except GoError Bool
  calls : List ProbeCall
  logs : List String
deriving DecidableEq, Repr

/-- `Client.checkPermissions`: probe the group listing (no pagination — the
v1 groups endpoint takes none), then the member listing and the project
listing with page size 1; a PermissionDenied-classified failure yields
`(false, nil)` after logging, any other failure is returned as the error. -/
def checkPermissions (env : ScopeEnv) (w : Workspace) : CheckResult :=
  match env.getWorkspaceUserGroups w.id with
  | .error e =>
    if isPermissionDeniedErr e then
      ⟨.ok false, [.groups w.id none], ["userGroups"]⟩
    else
      ⟨.error e, [.groups w.id none], []⟩
  | .ok _ =>
    match env.getWorkspaceMembers w.id with
    | .error e =>
      if isPermissionDeniedErr e then
        ⟨.ok false, [.groups w.id none, .members w.id (some 1)], ["users"]⟩
      else
        ⟨.error e, [.groups w.id none, .members w.id (some 1)], []⟩
    | .ok _ =>
      match env.getWorkspaceProjects w.id with
      | .error e =>
        if isPermissionDeniedErr e then
          ⟨.ok false,
            [.groups w.id none, .members w.id (some 1), .projects w.id (some 1)],
            ["projects"]⟩
        else
          ⟨.error e,
            [.groups w.id none, .members w.id (some 1), .projects w.id (some 1)], []⟩
      | .ok _ =>
        ⟨.ok true,
          [.groups w.id none, .members w.id (some 1), .projects w.id (some 1)], []⟩

/-- Insertion into the `workspaceIDs` set (a Go `map[string]bool`). -/
def dedupAppend (acc : List String) (id : String) : List String :=
  if id ∈ acc then acc else acc ++ [id]

/-- The workspace loop of `Client.SetWorkspaceIDs`: skip workspaces outside a
non-empty allow-list, abort on a fatal probe error, collect the ids of the
workspaces whose probes all pass. -/
def setWorkspaceIDsLoop (env : ScopeEnv) (given : List String) :
    List Workspace → List String → Except GoError (List String)
  | [], acc => .ok acc
  | w :: ws, acc =>
    if w.id ∉ given ∧ given ≠ [] then
      setWorkspaceIDsLoop env given ws acc
    else
      match (checkPermissions env w).res with
      | .error e => .error e
      | .ok false => setWorkspaceIDsLoop env given ws acc
      | .ok true => setWorkspaceIDsLoop env given ws (dedupAppend acc w.id)

/-- `Client.SetWorkspaceIDs`: require a user-scoped client, list all
workspaces, filter and probe each, and fail with the Unauthenticated
"no authenticated workspaces found" status when nothing passed. -/
def SetWorkspaceIDs (env : ScopeEnv) (isUserScoped : Bool)
    (workspaceIDs : List String) : Except GoError (List String) :=
  if isUserScoped = false then
    .error ⟨true, .invalidArgument, "client is not user scoped"⟩
  else
    match env.getAllWorkspaces with
    | .error e => .error e
    | .ok workspaces =>
      match setWorkspaceIDsLoop env workspaceIDs workspaces [] with
      | .error e => .error e
      | .ok ids =>
        if ids = [] then
          .error ⟨true, .unauthenticated, "no authenticated workspaces found"⟩
        else
          .ok ids

/-- The allow-list filter combined with the probe outcome, as a Boolean
predicate on candidate workspaces. -/
def passesScopeProbe (env : ScopeEnv) (given : List String) (w : Workspace) : Bool :=
  decide (w.id ∈ given ∨ given = []) && decide ((checkPermissions env w).res = .ok true)

theorem setWorkspaceIDsLoop_eq_filter (env : ScopeEnv) (given : List String) :
    ∀ (ws : List Workspace) (acc : List String),
      (∀ w ∈ ws, ∃ b, (checkPermissions env w).res = .ok b) →
      setWorkspaceIDsLoop env given ws acc
        = .ok (((ws.filter (passesScopeProbe env given)).map Workspace.id).foldl
            dedupAppend acc) := by
  intro ws
  induction ws with
  | nil => intro acc _; rfl
  | cons w ws ih =>
    intro acc hok
    obtain ⟨b, hb⟩ := hok w (by simp)
    have hrest : ∀ w ∈ ws, ∃ b, (checkPermissions env w).res = .ok b :=
      fun w hw => hok w (by simp [hw])
    by_cases hskip : w.id ∉ given ∧ given ≠ []
    · have hpass : passesScopeProbe env given w = false := by
        simp only [passesScopeProbe, Bool.and_eq_false_iff]
        left
        simpa [decide_eq_false_iff_not] using hskip
      rw [setWorkspaceIDsLoop, if_pos hskip, ih acc hrest, List.filter_cons,
        hpass]
      simp
    · cases b with
      | false =>
        have hpass : passesScopeProbe env given w = false := by
          simp [passesScopeProbe, hb]
        rw [setWorkspaceIDsLoop, if_neg hskip, hb, ih acc hrest, List.filter_cons,
          hpass]
        simp
      | true =>
        have hmem : w.id ∈ given ∨ given = [] := by
          have hskip2 := hskip
          push_neg at hskip2
          by_cases hw : w.id ∈ given
          · exact Or.inl hw
          · exact Or.inr (hskip2 hw)
        have hpass : passesScopeProbe env given w = true := by
          simp [passesScopeProbe, hb, hmem]
        rw [setWorkspaceIDsLoop, if_neg hskip, hb, ih (dedupAppend acc w.id) hrest,
          List.filter_cons, hpass]
        simp

/-- A scope environment in which every probe of the single workspace `W1`
succeeds. -/
def allOkScopeEnv : ScopeEnv where
  getAllWorkspaces := .ok [⟨"W1", "w1", "One"⟩]
  getWorkspaceUserGroups := fun _ => .ok []
  getWorkspaceMembers := fun _ => .ok []
  getWorkspaceProjects := fun _ => .ok []

/-- A scope environment with workspaces `W1` (all probes succeed) and `W2`
(the group listing fails with an unclassified HTTP 403). -/
def w12Env : ScopeEnv where
  getAllWorkspaces := .ok [⟨"W1", "w1", "One"⟩, ⟨"W2", "w2", "Two"⟩]
  getWorkspaceUserGroups := fun id =>
    if id = "W2" then .error ⟨false, .unknown, "unexpected status 403 Forbidden"⟩
    else .ok []
  getWorkspaceMembers := fun _ => .ok []
  getWorkspaceProjects := fun _ => .ok []

/-- A scope environment in which the group listing of the single workspace is
denied with an unclassified HTTP 403. -/
def deniedScopeEnv : ScopeEnv where
  getAllWorkspaces := .ok [⟨"W1", "w1", "One"⟩]
  getWorkspaceUserGroups := fun _ =>
    .error ⟨false, .unknown, "unexpected status 403 Forbidden"⟩
  getWorkspaceMembers := fun _ => .ok []
  getWorkspaceProjects := fun _ => .ok []

/-- **C4** (counterexample). The three probes of `checkPermissions` are not
all bounded page-size-1 calls: the group-listing probe calls the v1 groups
endpoint with no pagination variables at all, so on a workspace whose probes
all succeed the issued calls are group listing with no limit, then member and
project listings with limit 1 — "every probe has page size 1" is false. -/
theorem checkPermissions_group_probe_unbounded :
    checkPermissions allOkScopeEnv ⟨"W1", "w1", "One"⟩
        = ⟨.ok true,
            [.groups "W1" none, .members "W1" (some 1), .projects "W1" (some 1)], []⟩
      ∧ ((checkPermissions allOkScopeEnv ⟨"W1", "w1", "One"⟩).calls.all
          (fun c => decide (c.limit = some 1))) = false := by
  refine ⟨rfl, by decide⟩

/-- **C4** (amended). During workspace scope resolution every candidate
workspace is probed sequentially against the group listing (unpaginated),
the member listing (page size 1) and the project listing (page size 1); a
PermissionDenied-classified failure of any probe excludes the workspace
(result `false`, logged, no error), any other probe failure aborts resolution
with that error, and a workspace whose three probes succeed passes. In
particular, with `W1` fully readable and `W2` returning an unclassified 403
on group listing, `SetWorkspaceIDs` resolves the scope to exactly `{W1}`. -/
theorem checkPermissions_denied_excludes (env : ScopeEnv) (w : Workspace) (e : GoError) :
    (env.getWorkspaceUserGroups w.id = .error e → isPermissionDeniedErr e = true →
      checkPermissions env w = ⟨.ok false, [.groups w.id none], ["userGroups"]⟩)
    ∧ (env.getWorkspaceUserGroups w.id = .error e → isPermissionDeniedErr e = false →
      checkPermissions env w = ⟨.error e, [.groups w.id none], []⟩)
    ∧ (∀ gs, env.getWorkspaceUserGroups w.id = .ok gs →
      env.getWorkspaceMembers w.id = .error e → isPermissionDeniedErr e = true →
      checkPermissions env w
        = ⟨.ok false, [.groups w.id none, .members w.id (some 1)], ["users"]⟩)
    ∧ (∀ gs, env.getWorkspaceUserGroups w.id = .ok gs →
      env.getWorkspaceMembers w.id = .error e → isPermissionDeniedErr e = false →
      checkPermissions env w
        = ⟨.error e, [.groups w.id none, .members w.id (some 1)], []⟩)
    ∧ (∀ gs us, env.getWorkspaceUserGroups w.id = .ok gs →
      env.getWorkspaceMembers w.id = .ok us →
      env.getWorkspaceProjects w.id = .error e → isPermissionDeniedErr e = true →
      checkPermissions env w
        = ⟨.ok false,
            [.groups w.id none, .members w.id (some 1), .projects w.id (some 1)],
            ["projects"]⟩)
    ∧ (∀ gs us, env.getWorkspaceUserGroups w.id = .ok gs →
      env.getWorkspaceMembers w.id = .ok us →
      env.getWorkspaceProjects w.id = .error e → isPermissionDeniedErr e = false →
      checkPermissions env w
        = ⟨.error e,
            [.groups w.id none, .members w.id (some 1), .projects w.id (some 1)], []⟩)
    ∧ (∀ gs us ps, env.getWorkspaceUserGroups w.id = .ok gs →
      env.getWorkspaceMembers w.id = .ok us →
      env.getWorkspaceProjects w.id = .ok ps →
      checkPermissions env w
        = ⟨.ok true,
            [.groups w.id none, .members w.id (some 1), .projects w.id (some 1)], []⟩)
    ∧ SetWorkspaceIDs w12Env true [] = .ok ["W1"] := by
  refine ⟨?_, ?_, ?_, ?_, ?_, ?_, ?_, ?_⟩
  · intro hg hd; simp [checkPermissions, hg, hd]
  · intro hg hd; simp [checkPermissions, hg, hd]
  · intro gs hg hm hd; simp [checkPermissions, hg, hm, hd]
  · intro gs hg hm hd; simp [checkPermissions, hg, hm, hd]
  · intro gs us hg hm hp hd; simp [checkPermissions, hg, hm, hp, hd]
  · intro gs us hg hm hp hd; simp [checkPermissions, hg, hm, hp, hd]
  · intro gs us ps hg hm hp; simp [checkPermissions, hg, hm, hp]
  · rfl

/-- **C4** (witness). The amended theorem applied concretely: in the `W1`/`W2`
environment the 403-failing group probe excludes `W2` without error, and all
probes passing admits `W1`. -/
theorem checkPermissions_denied_excludes_witness :
    checkPermissions w12Env ⟨"W2", "w2", "Two"⟩
        = ⟨.ok false, [.groups "W2" none], ["userGroups"]⟩
      ∧ checkPermissions w12Env ⟨"W1", "w1", "One"⟩
        = ⟨.ok true,
            [.groups "W1" none, .members "W1" (some 1), .projects "W1" (some 1)], []⟩ := by
  constructor
  · exact (checkPermissions_denied_excludes w12Env ⟨"W2", "w2", "Two"⟩
      ⟨false, .unknown, "unexpected status 403 Forbidden"⟩).1 rfl (by decide)
  · exact (checkPermissions_denied_excludes w12Env ⟨"W1", "w1", "One"⟩
      ⟨false, .unknown, "unexpected status 403 Forbidden"⟩).2.2.2.2.2.2.1
      [] [] [] rfl rfl rfl

/-- **C5.** Provided the workspace listing succeeds and no probe fails
fatally, `SetWorkspaceIDs` returns the Unauthenticated
"no authenticated workspaces found" error exactly when the set of workspaces
surviving allow-list filtering and permission probing is empty; when at least
one workspace passes it returns that (non-empty) scope set with no error. -/
theorem setWorkspaceIDs_unauthenticated_iff (env : ScopeEnv) (given : List String)
    (ws : List Workspace)
    (h1 : env.getAllWorkspaces = .ok ws)
    (h2 : ∀ w ∈ ws, ∃ b, (checkPermissions env w).res = .ok b) :
    (SetWorkspaceIDs env true given
        = .error ⟨true, .unauthenticated, "no authenticated workspaces found"⟩
      ↔ ((ws.filter (passesScopeProbe env given)).map Workspace.id).foldl dedupAppend []
          = [])
    ∧ (((ws.filter (passesScopeProbe env given)).map Workspace.id).foldl dedupAppend []
          ≠ [] →
      SetWorkspaceIDs env true given
        = .ok (((ws.filter (passesScopeProbe env given)).map Workspace.id).foldl
            dedupAppend [])) := by
  have hloop := setWorkspaceIDsLoop_eq_filter env given ws [] h2
  constructor
  · by_cases hid :
        ((ws.filter (passesScopeProbe env given)).map Workspace.id).foldl dedupAppend []
          = [] <;>
      simp [SetWorkspaceIDs, h1, hloop, hid]
  · intro hne
    simp [SetWorkspaceIDs, h1, hloop, hne]

/-- **C5** (witness). The scope theorem applied concretely: with `W1` passing
and `W2` excluded the result is the non-empty scope `{W1}` and no error, and
with every workspace excluded the result is the Unauthenticated error. -/
theorem setWorkspaceIDs_unauthenticated_iff_witness :
    SetWorkspaceIDs w12Env true [] = .ok ["W1"]
      ∧ SetWorkspaceIDs deniedScopeEnv true []
        = .error ⟨true, .unauthenticated, "no authenticated workspaces found"⟩ := by
  constructor
  · exact (setWorkspaceIDs_unauthenticated_iff w12Env []
      [⟨"W1", "w1", "One"⟩, ⟨"W2", "w2", "Two"⟩] rfl
      (by
        intro w hw
        simp only [List.mem_cons, List.not_mem_nil, or_false] at hw
        rcases hw with rfl | rfl
        · exact ⟨true, rfl⟩
        · exact ⟨false, rfl⟩)).2 (by decide)
  · exact (setWorkspaceIDs_unauthenticated_iff deniedScopeEnv []
      [⟨"W1", "w1", "One"⟩] rfl
      (by
        intro w hw
        simp only [List.mem_cons, List.not_mem_nil, or_false] at hw
        rcases hw with rfl
        exact ⟨false, rfl⟩)).1.mpr (by decide)

/-! ## Resource listing (C10) -/

/-- A normalized `v2.Resource` with the fields the connector populates. -/
structure Resource where
  id : ResourceId
  displayName : String
  parentId : Option ResourceId
  profile : List (String × String)
deriving DecidableEq, Repr

/-- `ResourcesPageSize` of the connector helpers. -/
def ResourcesPageSize : Nat := 50

/-- One upstream listing call issued by a `List` entry point. -/
inductive ReadCall
  | getWorkspaceProjects (workspaceId : String) (limit : Nat) (page : String)
  | getProjectRepos (workspaceId projectId : String) (limit : Nat) (page : String)
  | getWorkspaceUserGroups (workspaceId : String)
deriving DecidableEq, Repr

/-- Upstream responses available to the `List` entry points. -/
structure ListEnv where
  getWorkspaceProjects : String → String → Except String (List Project × String)
  getProjectRepos : String → String → String → Except String (List Repository × String)
  getWorkspaceUserGroups : String → Except String (List UserGroup)

/-- `projectResource` of project.go. -/
def projectResource (project : Project) (parentResourceID : ResourceId) : Resource where
  id := ⟨resourceTypeProjectId,
    ComposeProjectId parentResourceID.resource project.id project.key⟩
  displayName := project.name
  parentId := some parentResourceID
  profile := [("project_id", project.id), ("project_name", project.name),
    ("project_key", project.key)]

/-- `repositoryResource` of repository.go. -/
def repositoryResource (repository : Repository) (parentResourceID : ResourceId) :
    Resource where
  id := ⟨resourceTypeRepositoryId,
    ComposeRepositoryId parentResourceID.resource repository.id⟩
  displayName := repository.fullName
  parentId := some parentResourceID
  profile := [("repository_id", repository.id), ("repository_name", repository.name),
    ("repository_full_name", repository.fullName)]

/-- `userGroupResource` of user-group.go: the member-id list is serialized as
a comma-joined profile string only when non-empty. -/
def userGroupResource (userGroup : UserGroup) (parentResourceID : ResourceId) :
    Resource where
  id := ⟨resourceTypeUserGroupId,
    ComposedGroupId parentResourceID.resource userGroup.slug⟩
  displayName := userGroup.name
  parentId := some parentResourceID
  profile :=
    [("userGroup_name", userGroup.name), ("userGroup_slug", userGroup.slug),
      ("userGroup_permission", userGroup.permission)]
    ++ (if userGroup.members.length > 0 then
          [("userGroup_members", goJoin ',' (userGroup.members.map User.id))]
        else [])

/-- `projectResourceType.List`: a nil parent returns immediately; otherwise
one page of `GetWorkspaceProjects` is fetched and mapped. -/
def projectList (env : ListEnv) (parentId : Option ResourceId) (token : Bag) :
    Except String (List Resource × Bag) × List ReadCall :=
  match parentId with
  | none => (.ok ([], []), [])
  | some parent =>
    let bag := parsePageToken token ⟨resourceTypeProjectId, ""⟩
    match env.getWorkspaceProjects parent.resource bag.pageToken with
    | .error e =>
      (.error ("bitbucket-connector: failed to list projects: " ++ e),
        [.getWorkspaceProjects parent.resource ResourcesPageSize bag.pageToken])
    | .ok (projects, nextToken) =>
      match bag.next nextToken with
      | .error e =>
        (.error e, [.getWorkspaceProjects parent.resource ResourcesPageSize bag.pageToken])
      | .ok bag2 =>
        (.ok (projects.map (fun p => projectResource p parent), bag2),
          [.getWorkspaceProjects parent.resource ResourcesPageSize bag.pageToken])

/-- `repositoryResourceType.List`: a nil parent returns immediately; otherwise
the composite project parent id is decomposed and one page of
`GetProjectRepos` is fetched and mapped. -/
def repositoryList (env : ListEnv) (parentId : Option ResourceId) (token : Bag) :
    Except String (List Resource × Bag) × List ReadCall :=
  match parentId with
  | none => (.ok ([], []), [])
  | some parent =>
    let bag := parsePageToken token ⟨resourceTypeRepositoryId, ""⟩
    match DecomposeProjectId parent.resource with
    | .error e => (.error e, [])
    | .ok (workspaceId, projectId, _) =>
      match env.getProjectRepos workspaceId projectId bag.pageToken with
      | .error e =>
        (.error ("bitbucket-connector: failed to list repositories: " ++ e),
          [.getProjectRepos workspaceId projectId ResourcesPageSize bag.pageToken])
      | .ok (repositories, nextToken) =>
        match bag.next nextToken with
        | .error e =>
          (.error e,
            [.getProjectRepos workspaceId projectId ResourcesPageSize bag.pageToken])
        | .ok bag2 =>
          (.ok (repositories.map (fun r => repositoryResource r parent), bag2),
            [.getProjectRepos workspaceId projectId ResourcesPageSize bag.pageToken])

/-- `userGroupResourceType.List`: a nil parent returns immediately; otherwise
the unpaginated group listing is fetched and mapped (empty next token). -/
def userGroupList (env : ListEnv) (parentId : Option ResourceId) :
    Except String (List Resource × Bag) × List ReadCall :=
  match parentId with
  | none => (.ok ([], []), [])
  | some parent =>
    match env.getWorkspaceUserGroups parent.resource with
    | .error e =>
      (.error ("bitbucket-connector: failed to list userGroups: " ++ e),
        [.getWorkspaceUserGroups parent.resource])
    | .ok userGroups =>
      (.ok (userGroups.map (fun g => userGroupResource g parent), []),
        [.getWorkspaceUserGroups parent.resource])

/-- **C10.** Calling `List` on the Project, Repository or UserGroup resource
type with a nil parent resource id returns an empty resource list, the empty
(terminal) page token and no error, and issues no upstream call at all —
for every environment and every incoming page token. -/
theorem list_nil_parent_returns_empty :
    (∀ (env : ListEnv) (token : Bag), projectList env none token = (.ok ([], []), []))
    ∧ (∀ (env : ListEnv) (token : Bag), repositoryList env none token = (.ok ([], []), []))
    ∧ (∀ env : ListEnv, userGroupList env none = (.ok ([], []), [])) :=
  ⟨fun _ _ => rfl, fun _ _ => rfl, fun _ => rfl⟩

end Bitbucket
